import Mathlib

/-!
Verification of the message-relay pipeline of `src/bot.py` (a Telegram bot
forwarding user text to the DeepSeek completion API).

The embedding translates the module-level constants and the handler
functions of `bot.py` into pure Lean functions.  Mutable process-global
dictionaries (`user_sessions`, `user_ai_mode`) become explicit maps
`Nat → Option _` threaded through the handlers; the single outbound HTTP
call inside `get_ai_response` is modelled by passing in a `GatewayOutcome`
oracle describing what the one `requests.post` attempt yielded, while the
request that was issued is recorded in the result so that call-count,
payload and timeout properties are statable.
-/

namespace Bot

/-- One role-tagged conversation message, `{"role": ..., "content": ...}`
as appended by `get_ai_response` (bot.py lines 69 and 93). -/
structure Turn where
  role : String
  content : String
deriving DecidableEq, Repr

/-- Outcome of the single `requests.post` attempt plus response parsing in
the `try` block of `get_ai_response` (bot.py lines 86–90): a connection
error or timeout raised by `requests.post`, a non-2xx status raised by
`raise_for_status`, a body without the expected
`choices[0].message.content` field (KeyError / json error), or success
with the generated text. -/
inductive GatewayOutcome where
  | networkError (detail : String)
  | httpError (status : Nat) (detail : String)
  | malformedResponse (detail : String)
  | success (content : String)
deriving DecidableEq, Repr

/-- Whether the outcome raised inside the `try` block. -/
def GatewayOutcome.isFailure : GatewayOutcome → Bool
  | .success _ => false
  | _ => true

/-- The exception detail string `e` logged at bot.py line 101. -/
def GatewayOutcome.detail : GatewayOutcome → String
  | .networkError d => d
  | .httpError _ d => d
  | .malformedResponse d => d
  | .success _ => ""

/-- The observable content of the one HTTP POST issued at bot.py line 87:
target URL, the payload fields of lines 80–84, and the timeout argument. -/
structure HttpRequest where
  url : String
  model : String
  messages : List Turn
  stream : Bool
  timeout : Nat
deriving DecidableEq, Repr

/-- bot.py line 57. -/
def DEEPSEEK_URL : String := "https://api.deepseek.com/v1/chat/completions"

/-- bot.py line 58. -/
def DEEPSEEK_MODEL : String := "deepseek-chat"

/-- bot.py line 59. -/
def TIMEOUT : Nat := 30

/-- The opaque user-facing fallback string returned at bot.py line 102. -/
def fallbackText : String := "AI service temporarily unavailable."

/-- The log line written by `logger.error` at bot.py line 101. -/
def errLog (user_id : Nat) (detail : String) : String :=
  "DeepSeek API error for user " ++ toString user_id ++ ": " ++ detail

/-- The trim step `if len(history) > 10: history = history[-10:]` applied
at bot.py lines 71–73 and again at lines 95–97 (`history[-10:]` keeps the
last 10 elements, i.e. drops `len - 10` from the front). -/
def trimHistory (h : List Turn) : List Turn :=
  if h.length > 10 then h.drop (h.length - 10) else h

/-- Point update of a Python dict modelled as a partial map
(`user_sessions[user_id] = history`). -/
def updateMap {α : Type} (m : Nat → Option α) (k : Nat) (v : α) :
    Nat → Option α :=
  fun x => if x = k then some v else m x

/-- Result of one call to `get_ai_response`: the `user_sessions` store
after the call, the returned string, the HTTP requests issued, and the
error-log lines written. -/
structure AiCallResult where
  sessions : Nat → Option (List Turn)
  text : String
  requests : List HttpRequest
  logs : List String

/-- bot.py lines 61–102.  Initializes the history of the user if absent,
appends the user turn and trims to the last 10, posts the payload
`{model, messages: history, stream: false}` once with `timeout=30`; on
success appends the assistant turn, trims again and returns the assistant
text; on any exception logs the detail and returns the fallback string.
(Note the Python list aliasing: `history.append` mutates the stored list
in place, and the trim branch reassigns `user_sessions[user_id]`, so the
stored value after the user-turn append is the trimmed appended list in
every case.) -/
def get_ai_response (sessions : Nat → Option (List Turn)) (user_id : Nat)
    (message_text : String) (outcome : GatewayOutcome) : AiCallResult :=
  let history0 := (sessions user_id).getD []
  let history1 := trimHistory (history0 ++ [⟨"user", message_text⟩])
  let sessions1 := updateMap sessions user_id history1
  let req : HttpRequest :=
    ⟨DEEPSEEK_URL, DEEPSEEK_MODEL, history1, false, TIMEOUT⟩
  match outcome with
  | .success content =>
      let history2 := trimHistory (history1 ++ [⟨"assistant", content⟩])
      ⟨updateMap sessions1 user_id history2, content, [req], []⟩
  | .networkError d => ⟨sessions1, fallbackText, [req], [errLog user_id d]⟩
  | .httpError _ d => ⟨sessions1, fallbackText, [req], [errLog user_id d]⟩
  | .malformedResponse d =>
      ⟨sessions1, fallbackText, [req], [errLog user_id d]⟩

/-- The two process-global dicts of bot.py lines 52 and 54:
`user_sessions` (conversation history keyed by user id) and
`user_ai_mode` (AI-chat-mode flag keyed by user id). -/
structure BotState where
  user_sessions : Nat → Option (List Turn)
  user_ai_mode : Nat → Option Bool

/-- Observable Telegram-side effects performed by the handlers. -/
inductive Action where
  | answerCallbackQuery
  | sendChatAction (chat_id : Nat) (action : String)
  | apiPost (req : HttpRequest)
  | replyText (text : String)
  | replyWithKeyboard (text : String) (callback_data : List String)
  | editMessageText (text : String)
deriving DecidableEq, Repr

/-- True exactly on the outbound completion-API POST action. -/
def Action.isApiPost : Action → Bool
  | .apiPost _ => true
  | _ => false

/-- True exactly on a `reply_text` send to the originating chat. -/
def Action.isReply : Action → Bool
  | .replyText _ => true
  | _ => false

/-- The nudge sent at bot.py lines 176–178 when the user is not in AI
mode. -/
def nudgeText : String :=
  "Please use /start to access the main menu and select an option."

/-- The welcome text of `start`, bot.py lines 114–118. -/
def welcomeText : String :=
  "👋 Welcome to ejdevassistant_bot!\n\n" ++
  "I am your AI assistant powered by DeepSeek. Use the buttons below to get started."

/-- The help text of `help_command`, bot.py lines 122–128. -/
def helpText : String :=
  "📚 *Help*\n\n" ++
  "/start - Show main menu\n" ++
  "/help - Show this help\n\n" ++
  "Press \x27🤖 Ask AI\x27 to enter AI chat mode. In AI mode, just send any message and I\x27ll reply with AI-generated content.\n" ++
  "Use the other buttons to learn more about the bot and its developer."

/-- The confirmation shown on the `ask_ai` button, bot.py lines 139–143. -/
def askAiModeText : String :=
  "✅ You are now in AI mode. Send me any message and I\x27ll respond using DeepSeek AI.\n\n" ++
  "Use /start to return to the main menu."

/-- The about text, bot.py lines 145–150. -/
def aboutText : String :=
  "🧠 *About This Bot*\n\n" ++
  "This is an AI assistant powered by DeepSeek, designed to help with various tasks.\n" ++
  "Built by Eshan, a Software Engineer from Sri Lanka.\n" ++
  "Hosted securely on Railway."

/-- Function `get_developer_info`, bot.py lines 38–48, with the `DEV_INFO` field
values of lines 28–36 substituted. -/
def get_developer_info : String :=
  "*👤 Developer Information*\n\n" ++
  "*Name:* Eshan\n" ++
  "*Country:* Sri Lanka\n" ++
  "*Field:* Software Engineering\n" ++
  "*Specialties:* AI Development, Web Development, Crypto Trading, Forex Trading\n\n" ++
  "*Telegram:* @ejag78X\n" ++
  "*X (Twitter):* @EJDavX\n" ++
  "*Email:* ejfxprotrade@gmail.com"

/-- The contact text, bot.py lines 155–159. -/
def contactText : String :=
  "📞 *Contact Developer*\n\n" ++
  "You can reach out via the following channels:\n\n" ++
  get_developer_info

/-- Handler `start`, bot.py lines 105–118: replies with the welcome text and the
four-button inline keyboard; touches no per-user state. -/
def start (st : BotState) (_user_id : Nat) : BotState × List Action :=
  (st, [Action.replyWithKeyboard welcomeText
          ["ask_ai", "about", "dev_info", "contact"]])

/-- Handler `help_command`, bot.py lines 120–129: replies with the help text;
touches no per-user state. -/
def help_command (st : BotState) (_user_id : Nat) :
    BotState × List Action :=
  (st, [Action.replyText helpText])

/-- Handler `button_handler`, bot.py lines 131–160: answers the callback query,
then dispatches on `query.data`; only the `ask_ai` branch mutates state,
setting `user_ai_mode[user_id] = True`. -/
def button_handler (st : BotState) (user_id : Nat) (data : String) :
    BotState × List Action :=
  if data = "ask_ai" then
    ({ st with user_ai_mode := updateMap st.user_ai_mode user_id true },
     [Action.answerCallbackQuery, Action.editMessageText askAiModeText])
  else if data = "about" then
    (st, [Action.answerCallbackQuery, Action.editMessageText aboutText])
  else if data = "dev_info" then
    (st, [Action.answerCallbackQuery, Action.editMessageText get_developer_info])
  else if data = "contact" then
    (st, [Action.answerCallbackQuery, Action.editMessageText contactText])
  else
    (st, [Action.answerCallbackQuery])

/-- Handler `handle_message`, bot.py lines 162–178: if
`user_ai_mode.get(user_id, False)` is true, sends a typing indicator,
calls `get_ai_response` (the POST it issues and the reply with its result
text appear as actions, in program order); otherwise replies with the
/start nudge and performs no API call. -/
def handle_message (st : BotState) (user_id : Nat) (text : String)
    (outcome : GatewayOutcome) : BotState × List Action :=
  if (st.user_ai_mode user_id).getD false then
    let r := get_ai_response st.user_sessions user_id text outcome
    ({ st with user_sessions := r.sessions },
     Action.sendChatAction user_id "typing" ::
       (r.requests.map Action.apiPost ++ [Action.replyText r.text]))
  else
    (st, [Action.replyText nudgeText])

/-- Handler `error_handler`, bot.py lines 180–182: writes one log line and does
nothing else — no reply is sent to the user.  Returns the (empty) list of
Telegram actions and the log lines. -/
def error_handler (upd : String) (err : String) :
    List Action × List String :=
  ([], ["Update " ++ upd ++ " caused error " ++ err])

/-- The `/webhook` route, bot.py lines 199–210: the body of the `try`
block (json parse, de_json, `process_update`) is summarized by an
`Except` oracle; on success the route returns ("OK", 200), on any
exception it logs and returns ("Error", 500).  Result: response body,
status code, log lines. -/
def webhook (processing : Except String Unit) :
    String × Nat × List String :=
  match processing with
  | .ok _ => ("OK", 200, [])
  | .error e => ("Error", 500, ["Error processing update: " ++ e])

/-- bot.py line 16. -/
def REQUIRED_ENV_VARS : List String :=
  ["BOT_TOKEN", "DEEPSEEK_API_KEY", "WEBHOOK_URL"]

/-- Python truthiness of `os.getenv(var)`: false when the variable is
absent or set to the empty string. -/
def envTruthy (env : String → Option String) (v : String) : Bool :=
  match env v with
  | none => false
  | some s => !(s == "")

/-- The startup check of bot.py lines 17–19: collects the required
variables that are unset and raises `RuntimeError` when any is missing,
before any traffic is served. -/
def startup_check (env : String → Option String) : Except String Unit :=
  let missing := REQUIRED_ENV_VARS.filter (fun v => !envTruthy env v)
  if missing.isEmpty then Except.ok ()
  else Except.error
    ("Missing environment variables: " ++ String.intercalate ", " missing)

/-! ### Helper lemmas about the trim rule and `get_ai_response` -/

theorem trimHistory_length_le (h : List Turn) :
    (trimHistory h).length ≤ 10 := by
  unfold trimHistory
  split
  · rw [List.length_drop]
    omega
  · omega

theorem trimHistory_append_eq_drop (h : List Turn) (t : Turn) :
    ∃ k, k ≤ h.length ∧ trimHistory (h ++ [t]) = (h ++ [t]).drop k := by
  unfold trimHistory
  split
  · refine ⟨(h ++ [t]).length - 10, ?_, rfl⟩
    simp only [List.length_append, List.length_singleton]
    omega
  · exact ⟨0, Nat.zero_le _, rfl⟩

theorem trimHistory_append_getLast (h : List Turn) (t : Turn) :
    (trimHistory (h ++ [t])).getLast? = some t := by
  obtain ⟨k, hk, heq⟩ := trimHistory_append_eq_drop h t
  rw [heq, List.drop_append_of_le_length hk, List.getLast?_concat]

theorem mem_of_mem_trimHistory (l : List Turn) (x : Turn)
    (hx : x ∈ trimHistory l) : x ∈ l := by
  unfold trimHistory at hx
  split at hx
  · exact List.mem_of_mem_drop hx
  · exact hx

theorem trimHistory_trim_append (a : List Turn) (t : Turn) :
    trimHistory (trimHistory a ++ [t]) = trimHistory (a ++ [t]) := by
  by_cases ha : a.length > 10
  · have h1 : trimHistory a = a.drop (a.length - 10) := if_pos ha
    have hlen : (a.drop (a.length - 10)).length = 10 := by
      rw [List.length_drop]; omega
    have hlen2 : (a.drop (a.length - 10) ++ [t]).length = 11 := by
      rw [List.length_append, hlen]; rfl
    have hlen3 : (a ++ [t]).length = a.length + 1 := by
      rw [List.length_append]; rfl
    have hL : trimHistory (a.drop (a.length - 10) ++ [t])
        = a.drop (a.length - 10 + (11 - 10)) ++ [t] := by
      rw [trimHistory, if_pos (by rw [hlen2]; omega), hlen2]
      rw [List.drop_append_of_le_length (by rw [hlen]; omega)]
      rw [List.drop_drop]
    have hR : trimHistory (a ++ [t]) = a.drop (a.length + 1 - 10) ++ [t] := by
      rw [trimHistory, if_pos (by rw [hlen3]; omega), hlen3]
      rw [List.drop_append_of_le_length (by omega)]
    rw [h1, hL, hR]
    have harith : a.length - 10 + (11 - 10) = a.length + 1 - 10 := by omega
    rw [harith]
  · have h1 : trimHistory a = a := if_neg ha
    rw [h1]

theorem foldl_trimHistory (a ts : List Turn) :
    List.foldl (fun h t => trimHistory (h ++ [t])) (trimHistory a) ts
      = trimHistory (a ++ ts) := by
  induction ts generalizing a with
  | nil => simp
  | cons t ts ih =>
      simp only [List.foldl_cons]
      rw [trimHistory_trim_append a t, ih (a ++ [t])]
      simp

theorem foldl_trimHistory_nil (ts : List Turn) (hts : 10 < ts.length) :
    List.foldl (fun h t => trimHistory (h ++ [t])) [] ts
      = ts.drop (ts.length - 10) := by
  have h0 : trimHistory ([] : List Turn) = [] := rfl
  have := foldl_trimHistory [] ts
  rw [h0, List.nil_append] at this
  rw [this, trimHistory, if_pos hts]

theorem get_ai_response_requests (sessions : Nat → Option (List Turn))
    (uid : Nat) (msg : String) (o : GatewayOutcome) :
    (get_ai_response sessions uid msg o).requests =
      [⟨DEEPSEEK_URL, DEEPSEEK_MODEL,
        trimHistory (((sessions uid).getD []) ++ [⟨"user", msg⟩]),
        false, TIMEOUT⟩] := by
  cases o <;> rfl

theorem get_ai_response_text_failure (sessions : Nat → Option (List Turn))
    (uid : Nat) (msg : String) (o : GatewayOutcome)
    (hf : o.isFailure = true) :
    (get_ai_response sessions uid msg o).text = fallbackText := by
  cases o with
  | success c => simp [GatewayOutcome.isFailure] at hf
  | networkError d => rfl
  | httpError s d => rfl
  | malformedResponse d => rfl

theorem get_ai_response_logs_failure (sessions : Nat → Option (List Turn))
    (uid : Nat) (msg : String) (o : GatewayOutcome)
    (hf : o.isFailure = true) :
    (get_ai_response sessions uid msg o).logs = [errLog uid o.detail] := by
  cases o with
  | success c => simp [GatewayOutcome.isFailure] at hf
  | networkError d => rfl
  | httpError s d => rfl
  | malformedResponse d => rfl

theorem get_ai_response_sessions_failure (sessions : Nat → Option (List Turn))
    (uid : Nat) (msg : String) (o : GatewayOutcome)
    (hf : o.isFailure = true) :
    (get_ai_response sessions uid msg o).sessions =
      updateMap sessions uid
        (trimHistory (((sessions uid).getD []) ++ [⟨"user", msg⟩])) := by
  cases o with
  | success c => simp [GatewayOutcome.isFailure] at hf
  | networkError d => rfl
  | httpError s d => rfl
  | malformedResponse d => rfl

theorem get_ai_response_sessions_success (sessions : Nat → Option (List Turn))
    (uid : Nat) (msg c : String) :
    (get_ai_response sessions uid msg (.success c)).sessions =
      updateMap
        (updateMap sessions uid
          (trimHistory (((sessions uid).getD []) ++ [⟨"user", msg⟩])))
        uid
        (trimHistory
          (trimHistory (((sessions uid).getD []) ++ [⟨"user", msg⟩])
            ++ [⟨"assistant", c⟩])) := rfl

theorem updateMap_self {α : Type} (m : Nat → Option α) (k : Nat) (v : α) :
    updateMap m k v k = some v := by
  simp [updateMap]

theorem handle_message_ai_mode (st : BotState) (uid : Nat) (text : String)
    (o : GatewayOutcome)
    (hmode : (st.user_ai_mode uid).getD false = true) :
    handle_message st uid text o =
      ({ st with
          user_sessions := (get_ai_response st.user_sessions uid text o).sessions },
       [Action.sendChatAction uid "typing",
        Action.apiPost
          ⟨DEEPSEEK_URL, DEEPSEEK_MODEL,
            trimHistory (((st.user_sessions uid).getD []) ++ [⟨"user", text⟩]),
            false, TIMEOUT⟩,
        Action.replyText (get_ai_response st.user_sessions uid text o).text]) := by
  rw [handle_message, if_pos hmode]
  simp only [get_ai_response_requests, List.map_cons, List.map_nil]
  rfl

theorem handle_message_no_mode (st : BotState) (uid : Nat) (text : String)
    (o : GatewayOutcome)
    (hmode : (st.user_ai_mode uid).getD false = false) :
    handle_message st uid text o = (st, [Action.replyText nudgeText]) := by
  rw [handle_message, if_neg (by simp [hmode])]

/-! ### Concrete fixtures -/

/-- A state in which user 1 has pressed the ask_ai button (AI mode on)
and no history is stored. -/
def stAi : BotState :=
  ⟨fun _ => none, fun uid => if uid = 1 then some true else none⟩

/-- A fresh process state: no histories, no AI-mode flags. -/
def stFresh : BotState := ⟨fun _ => none, fun _ => none⟩

/-- A 4097-character text, one character over the 4096 transport cap. -/
def longText : String := String.mk (List.replicate 4097 'a')

/-- An environment providing only the bot token and the API key. -/
def envAB : String → Option String := fun v =>
  if v = "BOT_TOKEN" then some "t"
  else if v = "DEEPSEEK_API_KEY" then some "k"
  else none

theorem button_handler_ai_mode_cases (st : BotState) (uid : Nat)
    (d : String) (u : Nat) :
    (button_handler st uid d).1.user_ai_mode u = st.user_ai_mode u
    ∨ (button_handler st uid d).1.user_ai_mode u = some true := by
  rcases eq_or_ne d "ask_ai" with h1 | h1
  · subst h1
    rw [button_handler, if_pos rfl]
    rcases eq_or_ne u uid with h2 | h2
    · exact Or.inr (by simp [updateMap, h2])
    · exact Or.inl (by simp [updateMap, h2])
  · left
    rw [button_handler, if_neg h1]
    split
    · rfl
    · split
      · rfl
      · split <;> rfl

theorem handle_message_ai_mode_unchanged (st : BotState) (uid : Nat)
    (text : String) (o : GatewayOutcome) (u : Nat) :
    (handle_message st uid text o).1.user_ai_mode u
      = st.user_ai_mode u := by
  cases hm : (st.user_ai_mode uid).getD false with
  | true => rw [handle_message_ai_mode st uid text o hm]
  | false => rw [handle_message_no_mode st uid text o hm]

/-! ### Claim theorems -/

/-- C1: after any call to `get_ai_response` the stored conversation
history of the calling user has length at most the cap of 10; on success
the store holds the result of trimming after the user-turn append and
again after the assistant-turn append (two trims per cycle); and pushing
more than 10 turns through the trim-append rule leaves exactly the most
recent 10 turns, oldest evicted first, in original relative order. -/
theorem C1_history_bounded (sessions : Nat → Option (List Turn))
    (uid : Nat) (msg c : String) (o : GatewayOutcome) (ts : List Turn)
    (hts : 10 < ts.length) :
    (((get_ai_response sessions uid msg o).sessions uid).getD []).length ≤ 10
    ∧ (get_ai_response sessions uid msg (.success c)).sessions uid
        = some (trimHistory
            (trimHistory (((sessions uid).getD []) ++ [⟨"user", msg⟩])
              ++ [⟨"assistant", c⟩]))
    ∧ List.foldl (fun h t => trimHistory (h ++ [t])) [] ts
        = ts.drop (ts.length - 10) := by
  refine ⟨?_, ?_, foldl_trimHistory_nil ts hts⟩
  · cases o with
    | success c2 =>
        rw [get_ai_response_sessions_success, updateMap_self]
        exact trimHistory_length_le _
    | networkError d =>
        rw [get_ai_response_sessions_failure sessions uid msg (.networkError d) rfl,
          updateMap_self]
        exact trimHistory_length_le _
    | httpError s d =>
        rw [get_ai_response_sessions_failure sessions uid msg (.httpError s d) rfl,
          updateMap_self]
        exact trimHistory_length_le _
    | malformedResponse d =>
        rw [get_ai_response_sessions_failure sessions uid msg (.malformedResponse d) rfl,
          updateMap_self]
        exact trimHistory_length_le _
  · rw [get_ai_response_sessions_success, updateMap_self]

/-- Witness for C1 at a fresh store, a network failure, and a sequence of
11 turns. -/
theorem C1_history_bounded_witness :
    10 < (List.replicate 11 (⟨"user", "x"⟩ : Turn)).length
    ∧ ((((get_ai_response (fun _ => none) 1 "hi"
            (.networkError "e")).sessions 1).getD []).length ≤ 10
      ∧ (get_ai_response (fun _ => none) 1 "hi" (.success "ok")).sessions 1
          = some (trimHistory
              (trimHistory ((((fun _ => none : Nat → Option (List Turn)) 1).getD [])
                  ++ [⟨"user", "hi"⟩]) ++ [⟨"assistant", "ok"⟩]))
      ∧ List.foldl (fun h t => trimHistory (h ++ [t])) []
            (List.replicate 11 (⟨"user", "x"⟩ : Turn))
          = (List.replicate 11 (⟨"user", "x"⟩ : Turn)).drop
              ((List.replicate 11 (⟨"user", "x"⟩ : Turn)).length - 10)) :=
  ⟨by decide,
   C1_history_bounded (fun _ => none) 1 "hi" "ok" (.networkError "e")
     (List.replicate 11 ⟨"user", "x"⟩) (by decide)⟩

/-- C3: on every failure of the completion call (connection error or
timeout, non-2xx status raised by `raise_for_status`, or a body missing
the generated-text field) `get_ai_response` returns the single opaque
fallback string, logs the triggering detail, and the returned text is the
same for every failure detail, so the original error detail is never
exposed in the reply; the embedding is a total function, matching the
catch-all `except` that lets no exception escape. -/
theorem C3_failure_opaque_fallback (sessions : Nat → Option (List Turn))
    (uid : Nat) (msg : String) (o : GatewayOutcome)
    (hf : o.isFailure = true) :
    (get_ai_response sessions uid msg o).text = fallbackText
    ∧ (get_ai_response sessions uid msg o).logs = [errLog uid o.detail]
    ∧ ∀ o2 : GatewayOutcome, o2.isFailure = true →
        (get_ai_response sessions uid msg o2).text
          = (get_ai_response sessions uid msg o).text := by
  refine ⟨get_ai_response_text_failure _ _ _ _ hf,
    get_ai_response_logs_failure _ _ _ _ hf, fun o2 h2 => ?_⟩
  rw [get_ai_response_text_failure _ _ _ _ hf,
    get_ai_response_text_failure _ _ _ _ h2]

/-- Witness for C3 at a forced 500 response. -/
theorem C3_failure_opaque_fallback_witness :
    (GatewayOutcome.httpError 500 "boom").isFailure = true
    ∧ ((get_ai_response (fun _ => none) 7 "q" (.httpError 500 "boom")).text
          = fallbackText
      ∧ (get_ai_response (fun _ => none) 7 "q" (.httpError 500 "boom")).logs
          = [errLog 7 (GatewayOutcome.httpError 500 "boom").detail]
      ∧ ∀ o2 : GatewayOutcome, o2.isFailure = true →
          (get_ai_response (fun _ => none) 7 "q" o2).text
            = (get_ai_response (fun _ => none) 7 "q"
                (.httpError 500 "boom")).text) :=
  ⟨rfl, C3_failure_opaque_fallback (fun _ => none) 7 "q"
    (.httpError 500 "boom") rfl⟩

/-- C4: the messages array of the request body is a suffix of the prior
stored history followed by the new user turn: history turns appear
oldest-to-newest and the new user turn is the last element (no system
prompt is present in this variant, so the optional-system-first clause is
vacuous). -/
theorem C4_messages_chronological (sessions : Nat → Option (List Turn))
    (uid : Nat) (msg : String) (o : GatewayOutcome) :
    ∃ (req : HttpRequest) (k : Nat),
      (get_ai_response sessions uid msg o).requests = [req]
      ∧ k ≤ ((sessions uid).getD []).length
      ∧ req.messages = (((sessions uid).getD []) ++ [(⟨"user", msg⟩ : Turn)]).drop k
      ∧ req.messages.getLast? = some (⟨"user", msg⟩ : Turn) := by
  obtain ⟨k, hk, heq⟩ :=
    trimHistory_append_eq_drop ((sessions uid).getD []) ⟨"user", msg⟩
  refine ⟨⟨DEEPSEEK_URL, DEEPSEEK_MODEL,
      trimHistory (((sessions uid).getD []) ++ [⟨"user", msg⟩]),
      false, TIMEOUT⟩, k, ?_, hk, heq, ?_⟩
  · exact get_ai_response_requests sessions uid msg o
  · exact trimHistory_append_getLast ((sessions uid).getD []) ⟨"user", msg⟩

/-- C5: each call to `get_ai_response` issues exactly one POST — the
requests list is exactly the one request to the completion endpoint with
`timeout = TIMEOUT = 30` — with no retry, and a timeout (`networkError`)
is treated as failure of that single call: the fallback is returned and
still exactly one request was issued. -/
theorem C5_single_post_timeout (sessions : Nat → Option (List Turn))
    (uid : Nat) (msg : String) (o : GatewayOutcome) (d : String) :
    (get_ai_response sessions uid msg o).requests
      = [⟨DEEPSEEK_URL, DEEPSEEK_MODEL,
          trimHistory (((sessions uid).getD []) ++ [⟨"user", msg⟩]),
          false, TIMEOUT⟩]
    ∧ TIMEOUT = 30
    ∧ (get_ai_response sessions uid msg (.networkError d)).text = fallbackText
    ∧ (get_ai_response sessions uid msg (.networkError d)).requests.length
        = 1 := by
  refine ⟨get_ai_response_requests sessions uid msg o, rfl, rfl, ?_⟩
  rw [get_ai_response_requests]
  rfl

/-- C9: when the completion call fails, the stored history is exactly the
trimmed user-turn-appended list — so the user turn appended at the start
of the call remains (it is the last stored element, the store is not
rolled back), every assistant turn still stored was already present
before the call (no assistant turn is appended for the cycle), and in
particular the fallback string is never stored as an assistant turn. -/
theorem C9_failure_history_kept (sessions : Nat → Option (List Turn))
    (uid : Nat) (msg : String) (o : GatewayOutcome)
    (hf : o.isFailure = true) :
    (get_ai_response sessions uid msg o).sessions uid
      = some (trimHistory (((sessions uid).getD []) ++ [⟨"user", msg⟩]))
    ∧ (trimHistory (((sessions uid).getD []) ++ [⟨"user", msg⟩])).getLast?
        = some ⟨"user", msg⟩
    ∧ (∀ t ∈ trimHistory (((sessions uid).getD []) ++ [⟨"user", msg⟩]),
        t.role = "assistant" → t ∈ ((sessions uid).getD []))
    ∧ ((⟨"assistant", fallbackText⟩ : Turn)
          ∈ trimHistory (((sessions uid).getD []) ++ [⟨"user", msg⟩]) →
        (⟨"assistant", fallbackText⟩ : Turn) ∈ ((sessions uid).getD [])) := by
  have hmem : ∀ t ∈ trimHistory (((sessions uid).getD []) ++ [⟨"user", msg⟩]),
      t.role = "assistant" → t ∈ ((sessions uid).getD []) := by
    intro t ht hrole
    have ht2 := mem_of_mem_trimHistory _ _ ht
    rcases List.mem_append.mp ht2 with h | h
    · exact h
    · rcases List.mem_singleton.mp h with rfl
      have hus : ("user" : String) = "assistant" := hrole
      exact absurd hus (by decide)
  refine ⟨?_,
    trimHistory_append_getLast ((sessions uid).getD []) ⟨"user", msg⟩,
    hmem, fun hmem2 => hmem _ hmem2 rfl⟩
  rw [get_ai_response_sessions_failure _ _ _ _ hf, updateMap_self]

/-- Witness for C9 at a fresh store and a forced timeout. -/
theorem C9_failure_history_kept_witness :
    (GatewayOutcome.networkError "timeout").isFailure = true
    ∧ ((get_ai_response (fun _ => none) 2 "hey"
          (.networkError "timeout")).sessions 2
        = some (trimHistory ((((fun _ => none : Nat → Option (List Turn)) 2).getD [])
            ++ [⟨"user", "hey"⟩]))
      ∧ (trimHistory ((((fun _ => none : Nat → Option (List Turn)) 2).getD [])
            ++ [⟨"user", "hey"⟩])).getLast? = some ⟨"user", "hey"⟩
      ∧ (∀ t ∈ trimHistory ((((fun _ => none : Nat → Option (List Turn)) 2).getD [])
            ++ [⟨"user", "hey"⟩]),
          t.role = "assistant" →
            t ∈ (((fun _ => none : Nat → Option (List Turn)) 2).getD []))
      ∧ ((⟨"assistant", fallbackText⟩ : Turn)
            ∈ trimHistory ((((fun _ => none : Nat → Option (List Turn)) 2).getD [])
                ++ [⟨"user", "hey"⟩]) →
          (⟨"assistant", fallbackText⟩ : Turn)
            ∈ (((fun _ => none : Nat → Option (List Turn)) 2).getD []))) :=
  ⟨rfl, C9_failure_history_kept (fun _ => none) 2 "hey"
    (.networkError "timeout") rfl⟩

/-- C2 counterexample: a 4097-character Gateway result is emitted to the
user as a single `reply_text` action whose text exceeds the 4096-character
transport cap — no chunk sequence with per-chunk bound is produced. -/
theorem C2_no_chunking_cex :
    Action.replyText longText
        ∈ (handle_message stAi 1 "hi" (.success longText)).2
    ∧ 4096 < longText.length := by
  constructor
  · rw [handle_message_ai_mode stAi 1 "hi" (.success longText) rfl]
    exact List.mem_cons_of_mem _ (List.mem_cons_of_mem _
      (List.mem_singleton.mpr rfl))
  · show 4096 < (List.replicate 4097 'a').length
    rw [List.length_replicate]
    omega

/-- C2 amended: the Gateway result text is emitted as exactly one reply
message equal to the whole text — `handle_message` performs no chunking —
so concatenating the emitted messages trivially reproduces the text and a
text already within the cap yields exactly one message equal to the
input, but no per-message length bound is enforced. -/
theorem C2_single_unchunked_reply (st : BotState) (uid : Nat)
    (text content : String)
    (hmode : (st.user_ai_mode uid).getD false = true) :
    ((handle_message st uid text (.success content)).2.filter Action.isReply)
      = [Action.replyText content] := by
  rw [handle_message_ai_mode st uid text (.success content) hmode]
  rfl

/-- Witness for the amended C2 at a user in AI mode. -/
theorem C2_single_unchunked_reply_witness :
    (stAi.user_ai_mode 1).getD false = true
    ∧ ((handle_message stAi 1 "hi" (.success "yo")).2.filter Action.isReply)
        = [Action.replyText "yo"] :=
  ⟨rfl, C2_single_unchunked_reply stAi 1 "hi" "yo" rfl⟩

/-- C6 counterexample: a plain text message from a user who never pressed
ask_ai (fresh state) is not dispatched to the Gateway — the handler
performs no API POST and only replies with the /start nudge, refuting
unconditional acceptance. -/
theorem C6_gateway_gated_cex :
    ((handle_message stFresh 1 "hello" (.success "hi")).2.filter
        Action.isApiPost) = []
    ∧ (handle_message stFresh 1 "hello" (.success "hi")).2
        = [Action.replyText nudgeText] := ⟨rfl, rfl⟩

/-- C6 amended: a plain text message is dispatched to the Gateway exactly
when the AI-mode flag of the sender is set: in AI mode the action sequence is
the typing indicator, then the one API POST, then the reply with the
Gateway result; a user not in AI mode gets only the /start nudge and no
Gateway call. -/
theorem C6_dispatch_in_ai_mode (st : BotState) (uid : Nat) (text : String)
    (o : GatewayOutcome)
    (hmode : (st.user_ai_mode uid).getD false = true) :
    (handle_message st uid text o).2
      = [Action.sendChatAction uid "typing",
         Action.apiPost ⟨DEEPSEEK_URL, DEEPSEEK_MODEL,
           trimHistory (((st.user_sessions uid).getD []) ++ [⟨"user", text⟩]),
           false, TIMEOUT⟩,
         Action.replyText (get_ai_response st.user_sessions uid text o).text]
    ∧ ∀ (st2 : BotState) (uid2 : Nat) (text2 : String) (o2 : GatewayOutcome),
        (st2.user_ai_mode uid2).getD false = false →
          (handle_message st2 uid2 text2 o2).2
            = [Action.replyText nudgeText] := by
  refine ⟨?_, fun st2 uid2 text2 o2 h2 => ?_⟩
  · rw [handle_message_ai_mode st uid text o hmode]
  · rw [handle_message_no_mode st2 uid2 text2 o2 h2]

/-- Witness for the amended C6 at a user in AI mode. -/
theorem C6_dispatch_in_ai_mode_witness :
    (stAi.user_ai_mode 1).getD false = true
    ∧ ((handle_message stAi 1 "hello" (.success "yo")).2
        = [Action.sendChatAction 1 "typing",
           Action.apiPost ⟨DEEPSEEK_URL, DEEPSEEK_MODEL,
             trimHistory (((stAi.user_sessions 1).getD [])
               ++ [⟨"user", "hello"⟩]),
             false, TIMEOUT⟩,
           Action.replyText
             (get_ai_response stAi.user_sessions 1 "hello" (.success "yo")).text]
      ∧ ∀ (st2 : BotState) (uid2 : Nat) (text2 : String) (o2 : GatewayOutcome),
          (st2.user_ai_mode uid2).getD false = false →
            (handle_message st2 uid2 text2 o2).2
              = [Action.replyText nudgeText]) :=
  ⟨rfl, C6_dispatch_in_ai_mode stAi 1 "hello" (.success "yo") rfl⟩

/-- C7 counterexample: on an unhandled exception the error handler writes
one log line and sends nothing to the user — no generic internal-error
apology reply exists, refuting that part of the claim. -/
theorem C7_no_apology_cex :
    (error_handler "u" "boom").1 = []
    ∧ (error_handler "u" "boom").2 = ["Update u caused error boom"] :=
  ⟨rfl, rfl⟩

/-- C7 amended: no exception crosses the boundary of the handling
of one update — the webhook route always returns a response (200 on success,
500 with a log line carrying the error detail on failure) and the error
handler logs the update and error — but no apology reply is sent to the
originating user: the error handler emits no Telegram action. -/
theorem C7_catch_log_no_reply (upd err e : String)
    (r : Except String Unit) :
    ((webhook r).2.1 = 200 ∨ (webhook r).2.1 = 500)
    ∧ webhook (.error e) = ("Error", 500, ["Error processing update: " ++ e])
    ∧ (error_handler upd err).1 = []
    ∧ (error_handler upd err).2
        = ["Update " ++ upd ++ " caused error " ++ err] := by
  refine ⟨?_, rfl, rfl, rfl⟩
  cases r with
  | ok u => exact Or.inl rfl
  | error e2 => exact Or.inr rfl

/-- C8 counterexample: with the bot token and the API key both set but
WEBHOOK_URL unset, the startup check still raises — the webhook base URL
is a required variable in this code, refuting the claim that only the
token and the key are required. -/
theorem C8_webhook_url_required_cex :
    envTruthy envAB "BOT_TOKEN" = true
    ∧ envTruthy envAB "DEEPSEEK_API_KEY" = true
    ∧ startup_check envAB
        = Except.error "Missing environment variables: WEBHOOK_URL" :=
  ⟨rfl, rfl, rfl⟩

/-- C8 amended: the process fails fatally at startup iff any of the bot
token, the AI-provider API key, or the webhook base URL is missing (unset
or empty); only the listen port is optional. -/
theorem C8_required_env (env : String → Option String) :
    startup_check env = Except.ok () ↔
      (envTruthy env "BOT_TOKEN" = true
        ∧ envTruthy env "DEEPSEEK_API_KEY" = true
        ∧ envTruthy env "WEBHOOK_URL" = true) := by
  cases hb : envTruthy env "BOT_TOKEN" <;>
    cases hk : envTruthy env "DEEPSEEK_API_KEY" <;>
      cases hw : envTruthy env "WEBHOOK_URL" <;>
        simp [startup_check, REQUIRED_ENV_VARS, List.filter_cons, hb, hk, hw]

/-- C10: the AI-mode flag is monotone: `start`, `help_command` and
`handle_message` never change `user_ai_mode`; `button_handler` leaves
every flag unchanged except possibly setting one to true (the only
mutation, on the ask_ai press), so a flag once true stays true across
every handler; and a user whose flag is true has every plain text message
dispatched to the Gateway — the action sequence contains the one API
POST. -/
theorem C10_ai_mode_monotone (st : BotState) (uid uid2 : Nat)
    (dat text : String) (o : GatewayOutcome)
    (hmode : (st.user_ai_mode uid2).getD false = true) :
    (start st uid).1.user_ai_mode uid2 = st.user_ai_mode uid2
    ∧ (help_command st uid).1.user_ai_mode uid2 = st.user_ai_mode uid2
    ∧ (handle_message st uid text o).1.user_ai_mode uid2
        = st.user_ai_mode uid2
    ∧ (∀ (d : String) (u : Nat),
        (button_handler st uid d).1.user_ai_mode u = st.user_ai_mode u
        ∨ (button_handler st uid d).1.user_ai_mode u = some true)
    ∧ ((button_handler st uid dat).1.user_ai_mode uid2).getD false = true
    ∧ (handle_message st uid2 text o).2
        = [Action.sendChatAction uid2 "typing",
           Action.apiPost ⟨DEEPSEEK_URL, DEEPSEEK_MODEL,
             trimHistory (((st.user_sessions uid2).getD [])
               ++ [⟨"user", text⟩]),
             false, TIMEOUT⟩,
           Action.replyText
             (get_ai_response st.user_sessions uid2 text o).text] := by
  refine ⟨rfl, rfl, handle_message_ai_mode_unchanged st uid text o uid2,
    fun d u => button_handler_ai_mode_cases st uid d u, ?_, ?_⟩
  · rcases button_handler_ai_mode_cases st uid dat uid2 with h | h
    · rw [h]; exact hmode
    · rw [h]; rfl
  · rw [handle_message_ai_mode st uid2 text o hmode]

/-- Witness for C10: user 1 of `stAi` is in AI mode; user 2 presses a
non-ask_ai button and user 1 then sends a message. -/
theorem C10_ai_mode_monotone_witness :
    (stAi.user_ai_mode 1).getD false = true
    ∧ ((start stAi 2).1.user_ai_mode 1 = stAi.user_ai_mode 1
      ∧ (help_command stAi 2).1.user_ai_mode 1 = stAi.user_ai_mode 1
      ∧ (handle_message stAi 2 "m" (.success "r")).1.user_ai_mode 1
          = stAi.user_ai_mode 1
      ∧ (∀ (d : String) (u : Nat),
          (button_handler stAi 2 d).1.user_ai_mode u = stAi.user_ai_mode u
          ∨ (button_handler stAi 2 d).1.user_ai_mode u = some true)
      ∧ ((button_handler stAi 2 "about").1.user_ai_mode 1).getD false = true
      ∧ (handle_message stAi 1 "m" (.success "r")).2
          = [Action.sendChatAction 1 "typing",
             Action.apiPost ⟨DEEPSEEK_URL, DEEPSEEK_MODEL,
               trimHistory (((stAi.user_sessions 1).getD [])
                 ++ [⟨"user", "m"⟩]),
               false, TIMEOUT⟩,
             Action.replyText
               (get_ai_response stAi.user_sessions 1 "m"
                 (.success "r")).text]) :=
  ⟨rfl, C10_ai_mode_monotone stAi 2 1 "about" "m" (.success "r") rfl⟩

end Bot
